import Mathlib

/-!
Verification of the channel-based IPC protocol layer
(ChannelServer, ChannelClient, IPCServer, routed and delayed channels).

The definitions below are a shallow embedding of the TypeScript source:
the enumerated message kinds, the message shapes, the ChannelServer
response production for a promise request, the ChannelClient response
handler installed by doRequest, the ChannelClient buffering state machine,
the ChannelServer active-request disposal, the routed channel of
IPCServer.getChannel, the event-subscription state machine of
requestEvent, and the IPCServer channel registry.

Asynchronous promise resolution is embedded as explicit traces: the
eventual result of a remote channel call is a finite list of progress
values followed by exactly one terminal outcome, which is exactly the
contract of the promise type used by the source (progress callbacks fire
before settlement, settlement happens once).
-/

namespace IpcSpec

/-- Embedding of the MessageType enum, in source order so that the
numeric codes match the TypeScript enum values 0..9. -/
inductive MessageType where
  | RequestPromise
  | RequestPromiseCancel
  | ResponseInitialize
  | ResponsePromiseSuccess
  | ResponsePromiseProgress
  | ResponsePromiseError
  | ResponsePromiseErrorObj
  | RequestEventListen
  | RequestEventDispose
  | ResponseEventFire
  deriving DecidableEq, Repr

/-- Numeric code of a message type, as assigned by the TypeScript enum. -/
def MessageType.code : MessageType → Nat
  | .RequestPromise => 0
  | .RequestPromiseCancel => 1
  | .ResponseInitialize => 2
  | .ResponsePromiseSuccess => 3
  | .ResponsePromiseProgress => 4
  | .ResponsePromiseError => 5
  | .ResponsePromiseErrorObj => 6
  | .RequestEventListen => 7
  | .RequestEventDispose => 8
  | .ResponseEventFire => 9

/-- Embedding of isResponse: a message type is a response kind iff its
enum code is at least the code of ResponseInitialize. -/
def isResponse (t : MessageType) : Bool :=
  MessageType.code MessageType.ResponseInitialize ≤ t.code

/-- Embedding of the dynamic values carried in the arg and data fields
of messages: a fragment of the JavaScript value universe large enough
for the claims. Plain objects are embedded as chains of vfield
constructors ending in vnull, so the example failure value
written as a record with a code field of 42 is
vfield "code" (vnum 42) vnull. -/
inductive Value where
  | vnull
  | vbool (b : Bool)
  | vnum (n : Int)
  | vstr (s : String)
  | vfield (key : String) (val rest : Value)
  deriving DecidableEq, Repr

/-- Embedding of a failure value produced by a remote operation: either
an Error instance (message, name, optional stack string) or an arbitrary
non-Error value. The distinction mirrors the instanceof Error test in
ChannelServer.onPromise. -/
inductive FailValue where
  | jsError (message errName : String) (stack : Option String)
  | raw (v : Value)
  deriving DecidableEq, Repr

/-- Embedding of the data field of a response message: absent (the
ResponseInitialize case), a plain value, or the serialized error record
sent by ResponsePromiseError (message, name, stack split into lines). -/
inductive RespData where
  | nodata
  | value (v : Value)
  | errorData (message errName : String) (stack : Option (List String))
  deriving DecidableEq, Repr

/-- Embedding of IRawRequest: id, type, and the request payload fields
(channelName, name, arg; present only on RequestPromise and
RequestEventListen, defaulted otherwise). -/
structure RawRequest where
  id : Nat
  type : MessageType
  channelName : String := ""
  name : String := ""
  arg : Value := .vnull
  deriving DecidableEq, Repr

/-- Embedding of IRawResponse: id, type, data. -/
structure RawResponse where
  id : Nat
  type : MessageType
  data : RespData
  deriving DecidableEq, Repr

/-- Terminal outcome of the eventual result of a remote channel call. -/
inductive Terminal where
  | success (v : Value)
  | failure (f : FailValue)
  deriving DecidableEq, Repr

/-- Trace of the eventual result returned by a channel call: zero or
more progress values, then exactly one terminal outcome. This embeds
the promise contract assumed by onPromise (progress callbacks fire in
production order, strictly before the single settlement). -/
structure PromiseTrace where
  progresses : List Value
  terminal : Terminal
  deriving DecidableEq, Repr

/-- Embedding of the stack serialization in ChannelServer.onPromise:
a truthy stack string is split into lines, a falsy one (absent or
empty) becomes undefined. -/
def serializeStack : Option String → Option (List String)
  | none => none
  | some s => if s = "" then none else some (s.splitOn "\n")

/-- Embedding of the error branch of ChannelServer.onPromise: an Error
failure is sent as ResponsePromiseError carrying message, name and the
split stack as plain data; any other failure value is sent verbatim as
ResponsePromiseErrorObj. -/
def serializeFailure (id : Nat) : FailValue → RawResponse
  | .jsError m n st => ⟨id, .ResponsePromiseError, .errorData m n (serializeStack st)⟩
  | .raw v => ⟨id, .ResponsePromiseErrorObj, .value v⟩

/-- Embedding of the success branch of ChannelServer.onPromise. -/
def successResponse (id : Nat) (v : Value) : RawResponse :=
  ⟨id, .ResponsePromiseSuccess, .value v⟩

/-- Embedding of the progress branch of ChannelServer.onPromise. -/
def progressResponse (id : Nat) (v : Value) : RawResponse :=
  ⟨id, .ResponsePromiseProgress, .value v⟩

/-- Messages sent by ChannelServer.onPromise for one request whose
eventual result has the given trace: one ResponsePromiseProgress per
progress value in production order, then the single terminal response
(success, or one of the two error kinds). -/
def onPromiseResponses (id : Nat) (t : PromiseTrace) : List RawResponse :=
  t.progresses.map (progressResponse id) ++
    [match t.terminal with
      | .success v => successResponse id v
      | .failure f => serializeFailure id f]

/-- Field access response.data.message as performed by the client when
reconstructing an Error (absent property reads as the empty string). -/
def RespData.messageField : RespData → String
  | .errorData m _ _ => m
  | _ => ""

/-- Field access response.data.name as performed by the client. -/
def RespData.errNameField : RespData → String
  | .errorData _ n _ => n
  | _ => ""

/-- Field access response.data.stack as performed by the client. -/
def RespData.stackField : RespData → Option (List String)
  | .errorData _ _ st => st
  | _ => none

/-- Value a rejected call settles with on the client: either the Error
reconstructed from a ResponsePromiseError payload, or the verbatim data
of a ResponsePromiseErrorObj. -/
inductive RejectValue where
  | reconstructedError (message errName : String) (stack : Option (List String))
  | verbatim (d : RespData)
  deriving DecidableEq, Repr

/-- Observable notification delivered to the caller of a request:
an intermediate progress value, or the single settlement (resolution
or rejection). -/
inductive ClientEvent where
  | progress (d : RespData)
  | resolved (d : RespData)
  | rejected (r : RejectValue)
  deriving DecidableEq, Repr

/-- Embedding of the response handler installed by ChannelClient.doRequest:
given one inbound response for the request, returns whether the handler
stays registered (it is deleted on any terminal response) and the
notifications delivered to the caller. Response types outside the switch
are ignored. -/
def promiseHandlerStep (resp : RawResponse) : Bool × List ClientEvent :=
  match resp.type with
  | .ResponsePromiseSuccess => (false, [.resolved resp.data])
  | .ResponsePromiseError =>
      (false, [.rejected (.reconstructedError resp.data.messageField
        resp.data.errNameField resp.data.stackField)])
  | .ResponsePromiseErrorObj => (false, [.rejected (.verbatim resp.data)])
  | .ResponsePromiseProgress => (true, [.progress resp.data])
  | _ => (true, [])

/-- Runs the doRequest handler over a list of inbound responses in
arrival order. Once a terminal response deletes the handler, later
responses for the id find no handler and are dropped, exactly as in
ChannelClient.onMessage. Returns the notifications delivered and
whether the handler is still registered at the end. -/
def runPromiseHandler : List RawResponse → List ClientEvent × Bool
  | [] => ([], true)
  | r :: rs =>
      match promiseHandlerStep r with
      | (false, evs) => (evs, false)
      | (true, evs) =>
          let rest := runPromiseHandler rs
          (evs ++ rest.1, rest.2)

/-- Settlement notification the caller observes for a given terminal
outcome, after the round trip through the server serialization and the
client handler. -/
def settleEvent : Terminal → ClientEvent
  | .success v => .resolved (.value v)
  | .failure (.jsError m n st) =>
      .rejected (.reconstructedError m n (serializeStack st))
  | .failure (.raw v) => .rejected (.verbatim (.value v))

/-- Property read on a JavaScript object used as a map. -/
def lookupAssoc {α β : Type} [DecidableEq α] : List (α × β) → α → Option β
  | [], _ => none
  | (k, v) :: rest, key => if k = key then some v else lookupAssoc rest key

/-- Property write on a JavaScript object used as a map (last writer
wins, keys stay unique). -/
def setAssoc {α β : Type} [DecidableEq α] : List (α × β) → α → β → List (α × β)
  | [], key, v => [(key, v)]
  | (k, w) :: rest, key, v =>
      if k = key then (key, v) :: rest else (k, w) :: setAssoc rest key v

/-- Property deletion on a JavaScript object used as a map. -/
def removeAssoc {α β : Type} [DecidableEq α] : List (α × β) → α → List (α × β)
  | [], _ => []
  | (k, v) :: rest, key =>
      if k = key then removeAssoc rest key else (k, v) :: removeAssoc rest key

/-- Embedding of the State enum of the ChannelClient. -/
inductive State where
  | Uninitialized
  | Idle
  deriving DecidableEq, Repr

/-- Kind of handler registered in the handlers map of the ChannelClient:
doRequest installs a promise handler (deleted on a terminal response),
requestEvent installs an event handler (fires its emitter, never deleted
by a response). -/
inductive HandlerKind where
  | promiseH
  | eventH
  deriving DecidableEq, Repr

/-- Observable state of one ChannelClient: the initialization state, the
monotonically increasing request-id counter, the buffer of requests
issued before initialization (each buffered entry has its flush closure
set), the handlers map, and the log of messages handed to
protocol.send in send order. -/
structure ClientState where
  state : State
  lastRequestId : Nat
  bufferedRequests : List RawRequest
  handlers : List (Nat × HandlerKind)
  sent : List RawRequest
  deriving DecidableEq, Repr

/-- Embedding of ChannelClient.doRequest restricted to its effect on the
client state: it installs the promise handler under the request id and
sends the raw request on the transport. -/
def doRequestSend (cs : ClientState) (raw : RawRequest) : ClientState :=
  { cs with
      handlers := setAssoc cs.handlers raw.id HandlerKind.promiseH,
      sent := cs.sent ++ [raw] }

/-- Embedding of ChannelClient.requestPromise: allocates the next
request id, builds the RequestPromise message, and either buffers it
(state Uninitialized, bufferRequest) or sends it at once (state Idle,
doRequest). -/
def requestPromise (cs : ClientState) (chName cmdName : String) (arg : Value) :
    ClientState :=
  let raw : RawRequest :=
    { id := cs.lastRequestId, type := .RequestPromise,
      channelName := chName, name := cmdName, arg := arg }
  let cs1 := { cs with lastRequestId := cs.lastRequestId + 1 }
  match cs1.state with
  | .Uninitialized => { cs1 with bufferedRequests := cs1.bufferedRequests ++ [raw] }
  | .Idle => doRequestSend cs1 raw

/-- Removal of the first request with the given id, embedding the
indexOf plus splice pair in the cancellation branch of bufferRequest
(request ids are unique per client, so identity of the request object
coincides with its id). -/
def removeFirstById : List RawRequest → Nat → List RawRequest
  | [], _ => []
  | r :: rs, id => if r.id = id then rs else r :: removeFirstById rs id

/-- Embedding of cancelling the promise returned by requestPromise.
While the client is Uninitialized the cancellation branch of
bufferRequest clears the flush closure and splices the request out of
the buffer without sending anything; once the client is Idle the request
has been sent (directly by doRequest or by its flush closure), and the
cancellation branch of doRequest sends a single RequestPromiseCancel
message bearing the request id. -/
def cancelRequest (cs : ClientState) (id : Nat) : ClientState :=
  match cs.state with
  | .Uninitialized =>
      { cs with bufferedRequests := removeFirstById cs.bufferedRequests id }
  | .Idle =>
      { cs with sent := cs.sent ++ [{ id := id, type := .RequestPromiseCancel }] }

/-- The ResponseInitialize message sent by the ChannelServer constructor.
The source sends it without an id field; it is modeled with id 0, which
is never consulted on the initialization path. -/
def initializeResponse : RawResponse := ⟨0, .ResponseInitialize, .nodata⟩

/-- Embedding of ChannelClient.onMessage: non-response message types are
ignored; the first ResponseInitialize while Uninitialized moves the
state to Idle, flushes every buffered request in buffer order through
doRequest, and clears the buffer; every other response is dispatched to
the handler registered under its id (no handler: dropped; promise
handler: deleted on a terminal response; event handler: fires its
emitter, which leaves the client state unchanged). -/
def clientOnMessage (cs : ClientState) (resp : RawResponse) : ClientState :=
  if !isResponse resp.type then cs
  else if cs.state = State.Uninitialized ∧ resp.type = MessageType.ResponseInitialize then
    let cs1 : ClientState := { cs with state := State.Idle }
    let cs2 := cs.bufferedRequests.foldl doRequestSend cs1
    { cs2 with bufferedRequests := [] }
  else
    match lookupAssoc cs.handlers resp.id with
    | none => cs
    | some HandlerKind.eventH => cs
    | some HandlerKind.promiseH =>
        if resp.type = MessageType.ResponsePromiseSuccess ∨
           resp.type = MessageType.ResponsePromiseError ∨
           resp.type = MessageType.ResponsePromiseErrorObj then
          { cs with handlers := removeAssoc cs.handlers resp.id }
        else cs

/-- Number of RequestPromiseCancel messages bearing the given id in a
send log. -/
def countCancels (l : List RawRequest) (id : Nat) : Nat :=
  (l.filter (fun m => m.id == id && m.type == MessageType.RequestPromiseCancel)).length

/-- Observable state of one ChannelServer restricted to request
disposal: the activeRequests map from request id to a disposer token,
and the log of disposer invocations (a token is appended each time the
corresponding dispose method runs). -/
structure ServerState where
  activeRequests : List (Nat × Nat)
  invoked : List Nat
  deriving DecidableEq, Repr

/-- Embedding of the registration performed by onPromise and
onEventListen: activeRequests of the request id is set to the disposer. -/
def registerActiveRequest (ss : ServerState) (id d : Nat) : ServerState :=
  { ss with activeRequests := setAssoc ss.activeRequests id d }

/-- Embedding of ChannelServer.disposeActiveRequest, the handler of
inbound RequestPromiseCancel and RequestEventDispose messages: if a
disposer is registered under the id it is invoked and the registration
deleted, otherwise nothing happens. -/
def disposeActiveRequest (ss : ServerState) (id : Nat) : ServerState :=
  match lookupAssoc ss.activeRequests id with
  | some d =>
      { activeRequests := removeAssoc ss.activeRequests id,
        invoked := ss.invoked ++ [d] }
  | none => ss

lemma lookupAssoc_removeAssoc {α β : Type} [DecidableEq α]
    (l : List (α × β)) (key : α) : lookupAssoc (removeAssoc l key) key = none := by
  induction l with
  | nil => simp [removeAssoc, lookupAssoc]
  | cons p rest ih =>
      by_cases h : p.1 = key
      · simpa [removeAssoc, h] using ih
      · simpa [removeAssoc, lookupAssoc, h] using ih

/-- C5: for a call already sent on the transport and then canceled by
the caller before its terminal response, the ChannelClient sends exactly
one RequestPromiseCancel message bearing the request id, and the
ChannelServer, upon receiving it, invokes the registered in-flight
disposer and removes its registration, so a second receipt of the same
cancel is a no-op and the disposer runs at most once. -/
theorem cancel_after_send_one_cancel_one_dispose
    (cs : ClientState) (ss : ServerState) (id d : Nat)
    (hIdle : cs.state = State.Idle)
    (hReg : lookupAssoc ss.activeRequests id = some d) :
    (cancelRequest cs id).sent
      = cs.sent ++ [{ id := id, type := .RequestPromiseCancel }] ∧
    countCancels (cancelRequest cs id).sent id = countCancels cs.sent id + 1 ∧
    (disposeActiveRequest ss id).invoked = ss.invoked ++ [d] ∧
    lookupAssoc (disposeActiveRequest ss id).activeRequests id = none ∧
    disposeActiveRequest (disposeActiveRequest ss id) id
      = disposeActiveRequest ss id := by
  refine ⟨?_, ?_, ?_, ?_, ?_⟩
  · simp [cancelRequest, hIdle]
  · simp [cancelRequest, hIdle, countCancels, List.filter_append]
  · simp [disposeActiveRequest, hReg]
  · simp [disposeActiveRequest, hReg, lookupAssoc_removeAssoc]
  · simp [disposeActiveRequest, hReg, lookupAssoc_removeAssoc]

/-- Witness for C5 at a concrete client, server, id and disposer. -/
theorem cancel_after_send_one_cancel_one_dispose_witness :
    (({ state := State.Idle, lastRequestId := 1, bufferedRequests := [],
        handlers := [(0, HandlerKind.promiseH)],
        sent := [{ id := 0, type := .RequestPromise, channelName := "ch",
                   name := "op" }] } : ClientState).state = State.Idle) ∧
    lookupAssoc (registerActiveRequest ⟨[], []⟩ 0 7).activeRequests 0 = some 7 ∧
    (disposeActiveRequest (registerActiveRequest ⟨[], []⟩ 0 7) 0).invoked = [7] := by
  refine ⟨rfl, by decide, ?_⟩
  have h := cancel_after_send_one_cancel_one_dispose
    { state := State.Idle, lastRequestId := 1, bufferedRequests := [],
      handlers := [(0, HandlerKind.promiseH)],
      sent := [{ id := 0, type := .RequestPromise, channelName := "ch",
                 name := "op" }] }
    (registerActiveRequest ⟨[], []⟩ 0 7) 0 7 rfl (by decide)
  simpa using h.2.2.1

/-- C6: an inbound RequestPromiseCancel or RequestEventDispose whose id
has no registered disposer in the activeRequests map is a silent no-op:
no disposer is invoked and the server state is left unchanged. -/
theorem unknown_id_dispose_is_noop (ss : ServerState) (req : RawRequest)
    (hType : req.type = MessageType.RequestPromiseCancel ∨
             req.type = MessageType.RequestEventDispose)
    (hNone : lookupAssoc ss.activeRequests req.id = none) :
    disposeActiveRequest ss req.id = ss ∧
    (disposeActiveRequest ss req.id).invoked = ss.invoked := by
  simp [disposeActiveRequest, hNone]

/-- Witness for C6 at a concrete server state and a stale cancel. -/
theorem unknown_id_dispose_is_noop_witness :
    (({ id := 5, type := .RequestPromiseCancel } : RawRequest).type
        = MessageType.RequestPromiseCancel ∨
     ({ id := 5, type := .RequestPromiseCancel } : RawRequest).type
        = MessageType.RequestEventDispose) ∧
    lookupAssoc (⟨[(1, 4)], []⟩ : ServerState).activeRequests 5 = none ∧
    disposeActiveRequest (⟨[(1, 4)], []⟩ : ServerState) 5 = ⟨[(1, 4)], []⟩ := by
  refine ⟨Or.inl rfl, by decide, ?_⟩
  exact (unknown_id_dispose_is_noop ⟨[(1, 4)], []⟩
    { id := 5, type := .RequestPromiseCancel } (Or.inl rfl) (by decide)).1

lemma foldl_doRequestSend_sent (l : List RawRequest) (cs : ClientState) :
    (l.foldl doRequestSend cs).sent = cs.sent ++ l := by
  induction l generalizing cs with
  | nil => simp
  | cons r rs ih =>
      simp only [List.foldl_cons]
      rw [ih]
      simp [doRequestSend]

lemma foldl_doRequestSend_state (l : List RawRequest) (cs : ClientState) :
    (l.foldl doRequestSend cs).state = cs.state := by
  induction l generalizing cs with
  | nil => rfl
  | cons r rs ih =>
      simp only [List.foldl_cons]
      rw [ih]
      rfl

lemma foldl_doRequestSend_buffered (l : List RawRequest) (cs : ClientState) :
    (l.foldl doRequestSend cs).bufferedRequests = cs.bufferedRequests := by
  induction l generalizing cs with
  | nil => rfl
  | cons r rs ih =>
      simp only [List.foldl_cons]
      rw [ih]
      rfl

lemma foldl_doRequestSend_lastId (l : List RawRequest) (cs : ClientState) :
    (l.foldl doRequestSend cs).lastRequestId = cs.lastRequestId := by
  induction l generalizing cs with
  | nil => rfl
  | cons r rs ih =>
      simp only [List.foldl_cons]
      rw [ih]
      rfl

/-- Every branch of onMessage other than the initialization transition
leaves the state, the send log, the buffer and the id counter unchanged
(it can at most fire a handler and delete it from the handlers map). -/
lemma clientOnMessage_frame (cs : ClientState) (resp : RawResponse)
    (h : ¬ (cs.state = State.Uninitialized ∧
            resp.type = MessageType.ResponseInitialize)) :
    (clientOnMessage cs resp).state = cs.state ∧
    (clientOnMessage cs resp).sent = cs.sent ∧
    (clientOnMessage cs resp).bufferedRequests = cs.bufferedRequests ∧
    (clientOnMessage cs resp).lastRequestId = cs.lastRequestId := by
  unfold clientOnMessage
  by_cases hr : isResponse resp.type
  · simp only [hr, Bool.not_true, Bool.false_eq_true, if_false, h, if_neg,
      not_false_eq_true]
    cases hl : lookupAssoc cs.handlers resp.id with
    | none => exact ⟨rfl, rfl, rfl, rfl⟩
    | some k =>
        cases k with
        | eventH => exact ⟨rfl, rfl, rfl, rfl⟩
        | promiseH =>
            by_cases ht : resp.type = MessageType.ResponsePromiseSuccess ∨
                resp.type = MessageType.ResponsePromiseError ∨
                resp.type = MessageType.ResponsePromiseErrorObj
            · simp [ht]
            · simp [ht]
  · simp [hr]

/-- C1: from the Uninitialized state, receiving the first
ResponseInitialize transitions the client to Idle, sends every buffered
request on the transport in buffer order with none lost, and clears the
buffer; no message other than a ResponseInitialize causes the
transition, and once Idle no later message flushes again or changes the
send log by itself. -/
theorem channelClient_first_initialize_flush (cs : ClientState)
    (h : cs.state = State.Uninitialized) :
    (clientOnMessage cs initializeResponse).state = State.Idle ∧
    (clientOnMessage cs initializeResponse).bufferedRequests = [] ∧
    (clientOnMessage cs initializeResponse).sent = cs.sent ++ cs.bufferedRequests ∧
    (∀ resp : RawResponse, resp.type ≠ MessageType.ResponseInitialize →
      (clientOnMessage cs resp).state = cs.state ∧
      (clientOnMessage cs resp).sent = cs.sent ∧
      (clientOnMessage cs resp).bufferedRequests = cs.bufferedRequests) ∧
    (∀ resp : RawResponse,
      (clientOnMessage (clientOnMessage cs initializeResponse) resp).state
        = State.Idle ∧
      (clientOnMessage (clientOnMessage cs initializeResponse) resp).bufferedRequests
        = [] ∧
      (clientOnMessage (clientOnMessage cs initializeResponse) resp).sent
        = (clientOnMessage cs initializeResponse).sent) := by
  have hinit : clientOnMessage cs initializeResponse
      = { cs.bufferedRequests.foldl doRequestSend { cs with state := State.Idle }
            with bufferedRequests := [] } := by
    unfold clientOnMessage
    simp [initializeResponse, isResponse, MessageType.code, h]
  have hstate : (clientOnMessage cs initializeResponse).state = State.Idle := by
    rw [hinit]
    simpa using foldl_doRequestSend_state cs.bufferedRequests
      { cs with state := State.Idle }
  refine ⟨hstate, by rw [hinit], ?_, ?_, ?_⟩
  · rw [hinit]
    simpa using foldl_doRequestSend_sent cs.bufferedRequests
      { cs with state := State.Idle }
  · intro resp hne
    exact ⟨(clientOnMessage_frame cs resp (fun hc => hne hc.2)).1,
      (clientOnMessage_frame cs resp (fun hc => hne hc.2)).2.1,
      (clientOnMessage_frame cs resp (fun hc => hne hc.2)).2.2.1⟩
  · intro resp
    have hframe := clientOnMessage_frame (clientOnMessage cs initializeResponse)
      resp (by rw [hstate]; rintro ⟨hc, -⟩; exact State.noConfusion hc)
    refine ⟨?_, ?_, hframe.2.1⟩
    · rw [hframe.1, hstate]
    · rw [hframe.2.2.1]
      rw [hinit]

/-- Witness for C1: a client with two buffered requests flushes both in
order on the first ResponseInitialize. -/
theorem channelClient_first_initialize_flush_witness :
    (({ state := State.Uninitialized, lastRequestId := 2,
        bufferedRequests :=
          [{ id := 0, type := .RequestPromise, channelName := "ch", name := "a" },
           { id := 1, type := .RequestPromise, channelName := "ch", name := "b",
             arg := .vnum 3 }],
        handlers := [], sent := [] } : ClientState).state = State.Uninitialized) ∧
    (clientOnMessage
      { state := State.Uninitialized, lastRequestId := 2,
        bufferedRequests :=
          [{ id := 0, type := .RequestPromise, channelName := "ch", name := "a" },
           { id := 1, type := .RequestPromise, channelName := "ch", name := "b",
             arg := .vnum 3 }],
        handlers := [], sent := [] } initializeResponse).sent
      = [{ id := 0, type := .RequestPromise, channelName := "ch", name := "a" },
         { id := 1, type := .RequestPromise, channelName := "ch", name := "b",
           arg := .vnum 3 }] := by
  refine ⟨rfl, ?_⟩
  have h := channelClient_first_initialize_flush
    { state := State.Uninitialized, lastRequestId := 2,
      bufferedRequests :=
        [{ id := 0, type := .RequestPromise, channelName := "ch", name := "a" },
         { id := 1, type := .RequestPromise, channelName := "ch", name := "b",
           arg := .vnum 3 }],
      handlers := [], sent := [] } rfl
  simpa using h.2.2.1

/-- Initialization case of ChannelClient.onMessage: any response of type
ResponseInitialize received while Uninitialized flushes the buffer and
moves the client to Idle. -/
lemma clientOnMessage_init (cs : ClientState) (resp : RawResponse)
    (hU : cs.state = State.Uninitialized)
    (ht : resp.type = MessageType.ResponseInitialize) :
    clientOnMessage cs resp =
      { cs.bufferedRequests.foldl doRequestSend { cs with state := State.Idle }
          with bufferedRequests := [] } := by
  unfold clientOnMessage
  simp [isResponse, MessageType.code, ht, hU]

/-- One client-side action: issuing a new call, the effective
cancellation of the call with the given id, or delivery of one inbound
message from the transport. -/
inductive ClientOp where
  | issue (chName cmdName : String) (arg : Value)
  | cancelOp (id : Nat)
  | deliver (resp : RawResponse)
  deriving DecidableEq, Repr

/-- Applies one client-side action to the client state. -/
def applyClientOp (cs : ClientState) : ClientOp → ClientState
  | .issue c n a => requestPromise cs c n a
  | .cancelOp i => cancelRequest cs i
  | .deliver r => clientOnMessage cs r

/-- Runs a sequence of client-side actions in order. -/
def runClientOps (cs : ClientState) (ops : List ClientOp) : ClientState :=
  ops.foldl applyClientOp cs

/-- The request id appears nowhere in the client: not in the send log,
not in the buffer, and below the id counter (so it can never be
allocated again). -/
def idGone (cs : ClientState) (id : Nat) : Prop :=
  (∀ m ∈ cs.sent, m.id ≠ id) ∧
  (∀ r ∈ cs.bufferedRequests, r.id ≠ id) ∧
  id < cs.lastRequestId

/-- Number of requests bearing the given id in a request list. -/
def countId : List RawRequest → Nat → Nat
  | [], _ => 0
  | r :: rs, id => (if r.id = id then 1 else 0) + countId rs id

lemma countId_pos_of_mem {l : List RawRequest} {id : Nat} {r : RawRequest}
    (hr : r ∈ l) (hid : r.id = id) : 0 < countId l id := by
  induction l with
  | nil => cases hr
  | cons a as ih =>
      rcases List.mem_cons.mp hr with rfl | h
      · simp [countId, hid]
      · have h2 := ih h
        by_cases ha : a.id = id <;> simp only [countId, if_pos, if_neg, ha] <;> omega

lemma removeFirstById_mem {l : List RawRequest} {i : Nat} {r : RawRequest}
    (h : r ∈ removeFirstById l i) : r ∈ l := by
  induction l with
  | nil => simpa [removeFirstById] using h
  | cons a as ih =>
      by_cases ha : a.id = i
      · simp only [removeFirstById, if_pos ha] at h
        exact List.mem_cons_of_mem a h
      · simp only [removeFirstById, if_neg ha] at h
        rcases List.mem_cons.mp h with h | h
        · exact h ▸ List.mem_cons_self a as
        · exact List.mem_cons_of_mem a (ih h)

lemma removeFirstById_no_id (l : List RawRequest) (id : Nat)
    (honce : countId l id ≤ 1) :
    ∀ r ∈ removeFirstById l id, r.id ≠ id := by
  induction l with
  | nil => simp [removeFirstById]
  | cons a as ih =>
      by_cases ha : a.id = id
      · intro r hr hrid
        simp only [countId, if_pos ha] at honce
        simp only [removeFirstById, if_pos ha] at hr
        have hpos : 0 < countId as id := countId_pos_of_mem hr hrid
        omega
      · intro r hr
        simp only [countId, if_neg ha] at honce
        simp only [removeFirstById, if_neg ha] at hr
        rcases List.mem_cons.mp hr with rfl | hr2
        · exact ha
        · exact ih (by omega) r hr2

/-- Once a request id is gone from the client, no later action brings it
back, provided the gone id is not cancelled a second time (in the source
a promise cancellation is effective at most once). -/
lemma applyClientOp_idGone (cs : ClientState) (id : Nat) (op : ClientOp)
    (h : idGone cs id) (hop : op ≠ ClientOp.cancelOp id) :
    idGone (applyClientOp cs op) id := by
  obtain ⟨hs, hb, hlt⟩ := h
  cases op with
  | issue c n a =>
      show idGone (requestPromise cs c n a) id
      unfold requestPromise
      cases hst : cs.state with
      | Uninitialized =>
          simp only [hst]
          refine ⟨hs, ?_, by simp; omega⟩
          intro r hr
          simp at hr
          rcases hr with hr | hr
          · exact hb r hr
          · rw [hr]
            simp
            omega
      | Idle =>
          simp only [hst]
          refine ⟨?_, hb, by simp [doRequestSend]; omega⟩
          intro m hm
          simp [doRequestSend] at hm
          rcases hm with hm | hm
          · exact hs m hm
          · rw [hm]
            simp
            omega
  | cancelOp i =>
      have hne : i ≠ id := fun he => hop (by rw [he])
      show idGone (cancelRequest cs i) id
      unfold cancelRequest
      cases hst : cs.state with
      | Uninitialized =>
          exact ⟨hs, fun r hr => hb r (removeFirstById_mem hr), hlt⟩
      | Idle =>
          refine ⟨?_, hb, hlt⟩
          intro m hm
          simp at hm
          rcases hm with hm | hm
          · exact hs m hm
          · rw [hm]
            simpa using hne
  | deliver r =>
      show idGone (clientOnMessage cs r) id
      by_cases hcond : cs.state = State.Uninitialized ∧
          r.type = MessageType.ResponseInitialize
      · rw [clientOnMessage_init cs r hcond.1 hcond.2]
        refine ⟨?_, by simp, ?_⟩
        · intro m hm
          have : m ∈ cs.sent ++ cs.bufferedRequests := by
            simpa [foldl_doRequestSend_sent] using hm
          rcases List.mem_append.mp this with hm2 | hm2
          · exact hs m hm2
          · exact hb m hm2
        · simpa [foldl_doRequestSend_lastId] using hlt
      · have hf := clientOnMessage_frame cs r hcond
        refine ⟨?_, ?_, ?_⟩
        · rw [hf.2.1]; exact hs
        · rw [hf.2.2.1]; exact hb
        · rw [hf.2.2.2]; exact hlt

lemma runClientOps_idGone (cs : ClientState) (id : Nat) (ops : List ClientOp)
    (h : idGone cs id) (hops : ClientOp.cancelOp id ∉ ops) :
    idGone (runClientOps cs ops) id := by
  induction ops generalizing cs with
  | nil => exact h
  | cons op rest ih =>
      simp only [runClientOps, List.foldl_cons]
      have hne : op ≠ ClientOp.cancelOp id := fun he => hops (he ▸ List.mem_cons_self op rest)
      exact ih (applyClientOp cs op) (applyClientOp_idGone cs id op h hne)
        (fun hm => hops (List.mem_cons_of_mem op hm))

/-- C4: a call buffered while the client is Uninitialized and then
canceled by the caller is removed from the buffer with nothing sent for
it, and no later behavior of the client (new calls, other
cancellations, any delivered messages, including the initialization
flush) ever sends a message bearing that request id on the transport,
neither the RequestPromise itself nor a RequestPromiseCancel. -/
theorem buffered_cancel_never_sent (cs : ClientState) (id : Nat)
    (ops : List ClientOp)
    (hU : cs.state = State.Uninitialized)
    (hSent : ∀ m ∈ cs.sent, m.id ≠ id)
    (hOnce : countId cs.bufferedRequests id ≤ 1)
    (hLt : id < cs.lastRequestId)
    (hOps : ClientOp.cancelOp id ∉ ops) :
    (cancelRequest cs id).sent = cs.sent ∧
    (∀ r ∈ (cancelRequest cs id).bufferedRequests, r.id ≠ id) ∧
    (∀ m ∈ (runClientOps (cancelRequest cs id) ops).sent, m.id ≠ id) := by
  have hc : cancelRequest cs id
      = { cs with bufferedRequests := removeFirstById cs.bufferedRequests id } := by
    unfold cancelRequest
    rw [hU]
  have hGone : idGone (cancelRequest cs id) id := by
    rw [hc]
    exact ⟨hSent, removeFirstById_no_id cs.bufferedRequests id hOnce, hLt⟩
  refine ⟨by rw [hc], hGone.2.1, ?_⟩
  exact (runClientOps_idGone (cancelRequest cs id) id ops hGone hOps).1

/-- Witness for C4: the buffered request 0 is cancelled, then another
call is issued and initialization arrives; no message with id 0 is ever
sent. -/
theorem buffered_cancel_never_sent_witness :
    (({ state := State.Uninitialized, lastRequestId := 1,
        bufferedRequests :=
          [{ id := 0, type := .RequestPromise, channelName := "ch", name := "a" }],
        handlers := [], sent := [] } : ClientState).state = State.Uninitialized) ∧
    (0 : Nat) < 1 ∧
    (∀ m ∈ (runClientOps
        (cancelRequest
          { state := State.Uninitialized, lastRequestId := 1,
            bufferedRequests :=
              [{ id := 0, type := .RequestPromise, channelName := "ch",
                 name := "a" }],
            handlers := [], sent := [] } 0)
        [ClientOp.issue "ch" "b" Value.vnull,
         ClientOp.deliver initializeResponse]).sent, m.id ≠ 0) := by
  refine ⟨rfl, by decide, ?_⟩
  exact (buffered_cancel_never_sent
    { state := State.Uninitialized, lastRequestId := 1,
      bufferedRequests :=
        [{ id := 0, type := .RequestPromise, channelName := "ch", name := "a" }],
      handlers := [], sent := [] } 0
    [ClientOp.issue "ch" "b" Value.vnull, ClientOp.deliver initializeResponse]
    rfl (by decide) (by decide) (by decide) (by decide)).2.2

/-- C2: round trip of a failed call. An Error failure goes out as
ResponsePromiseError and the caller rejects with the reconstructed Error
carrying the original message (and name, and the stack split into
lines); a non-Error failure goes out as ResponsePromiseErrorObj and the
caller rejects with the value passed through verbatim. -/
theorem failure_roundtrip (id : Nat) :
    (∀ (m n : String) (st : Option String),
      (serializeFailure id (.jsError m n st)).type
        = MessageType.ResponsePromiseError ∧
      runPromiseHandler [serializeFailure id (.jsError m n st)]
        = ([ClientEvent.rejected
              (.reconstructedError m n (serializeStack st))], false)) ∧
    (∀ v : Value,
      (serializeFailure id (.raw v)).type
        = MessageType.ResponsePromiseErrorObj ∧
      runPromiseHandler [serializeFailure id (.raw v)]
        = ([ClientEvent.rejected (.verbatim (.value v))], false)) := by
  constructor
  · intro m n st
    exact ⟨rfl, by
      simp [serializeFailure, runPromiseHandler, promiseHandlerStep,
        RespData.messageField, RespData.errNameField, RespData.stackField]⟩
  · intro v
    exact ⟨rfl, by simp [serializeFailure, runPromiseHandler, promiseHandlerStep]⟩

/-- C3: for every request and every eventual-result trace, the caller
observes exactly the progress notifications in production order,
followed by the single settlement, after which the handler is gone, so
no notification can follow the settlement. -/
theorem progress_before_terminal (id : Nat) (t : PromiseTrace) :
    runPromiseHandler (onPromiseResponses id t)
      = (t.progresses.map (fun v => ClientEvent.progress (RespData.value v))
          ++ [settleEvent t.terminal], false) := by
  obtain ⟨ps, term⟩ := t
  induction ps with
  | nil =>
      cases term with
      | success v =>
          simp [onPromiseResponses, runPromiseHandler, promiseHandlerStep,
            successResponse, settleEvent]
      | failure f =>
          cases f <;>
            simp [onPromiseResponses, runPromiseHandler, promiseHandlerStep,
              serializeFailure, settleEvent, RespData.messageField,
              RespData.errNameField, RespData.stackField]
  | cons p ps ih =>
      simp only [onPromiseResponses, List.map_cons, List.cons_append,
        runPromiseHandler, promiseHandlerStep, progressResponse,
        List.append_eq] at ih ⊢
      rw [ih]
      simp

/-- Outcome of invoking the call method of a channel implementation:
either a synchronous throw or an eventual result (as a trace). -/
inductive CallOutcome where
  | throwsErr (f : FailValue)
  | promise (t : PromiseTrace)

/-- Embedding of a locally registered IChannel: a call method and a
listen method (the event values the requested stream produces). -/
structure Channel where
  call : String → Value → CallOutcome
  listen : String → Value → List Value

/-- Embedding of the lookup and try/catch in ChannelServer.onPromise:
reading an unregistered channel name yields undefined, so invoking call
on it throws a TypeError, which the try converts to an immediately
failed eventual result (TPromise.wrapError); a synchronous throw from a
registered implementation is converted the same way; otherwise the
eventual result of the implementation is used as is. -/
def invokeChannel (channels : List (String × Channel)) (req : RawRequest) :
    PromiseTrace :=
  match lookupAssoc channels req.channelName with
  | none => ⟨[], .failure (.jsError "channel.call is not a function" "TypeError" none)⟩
  | some ch =>
      match ch.call req.name req.arg with
      | .throwsErr f => ⟨[], .failure f⟩
      | .promise t => t

/-- The failure value wrapped when the invocation in onPromise throws
synchronously (unregistered channel, or a throwing implementation);
none when the invocation returns an eventual result. -/
def syncThrowOf (channels : List (String × Channel)) (req : RawRequest) :
    Option FailValue :=
  match lookupAssoc channels req.channelName with
  | none => some (.jsError "channel.call is not a function" "TypeError" none)
  | some ch =>
      match ch.call req.name req.arg with
      | .throwsErr f => some f
      | .promise _ => none

/-- Full message production of ChannelServer.onPromise for one inbound
RequestPromise against the channel registry. -/
def serverOnPromise (channels : List (String × Channel)) (req : RawRequest) :
    List RawResponse :=
  onPromiseResponses req.id (invokeChannel channels req)

/-- C7: when invoking the looked-up channel throws synchronously
(including the runtime failure on an unregistered channel name), the
server still answers the request with exactly one response, and that
response is one of the two error kinds, so the request is neither
dropped nor does the server crash. -/
theorem sync_throw_still_answered (channels : List (String × Channel))
    (req : RawRequest) (f : FailValue)
    (h : syncThrowOf channels req = some f) :
    serverOnPromise channels req = [serializeFailure req.id f] ∧
    ((serializeFailure req.id f).type = MessageType.ResponsePromiseError ∨
     (serializeFailure req.id f).type = MessageType.ResponsePromiseErrorObj) := by
  refine ⟨?_, by cases f <;> simp [serializeFailure]⟩
  unfold syncThrowOf at h
  unfold serverOnPromise invokeChannel
  cases hl : lookupAssoc channels req.channelName with
  | none =>
      rw [hl] at h
      simp only [Option.some.injEq] at h
      simp [onPromiseResponses, ← h]
  | some ch =>
      simp only [hl] at h ⊢
      cases ho : ch.call req.name req.arg with
      | throwsErr g =>
          simp only [ho, Option.some.injEq] at h ⊢
          simp [onPromiseResponses, ← h]
      | promise t =>
          simp only [ho] at h
          exact Option.noConfusion h

/-- Witness for C7: a request naming an unregistered channel is answered
with one ResponsePromiseError. -/
theorem sync_throw_still_answered_witness :
    syncThrowOf [] { id := 3, type := .RequestPromise, channelName := "nosuch",
                     name := "cmd" }
      = some (.jsError "channel.call is not a function" "TypeError" none) ∧
    serverOnPromise [] { id := 3, type := .RequestPromise, channelName := "nosuch",
                         name := "cmd" }
      = [serializeFailure 3
          (.jsError "channel.call is not a function" "TypeError" none)] := by
  refine ⟨rfl, ?_⟩
  exact (sync_throw_still_answered []
    { id := 3, type := .RequestPromise, channelName := "nosuch", name := "cmd" }
    (.jsError "channel.call is not a function" "TypeError" none) rfl).1

/-- Embedding of an IClientRouter: the policy mapping a command or event
name and its argument to a target connection id, none when the router
yields no id (the falsy check in the source). -/
structure ClientRouter where
  routeCall : String → Value → Option String
  routeEvent : String → Value → Option String

/-- Outcome of one routed call or listen obtained from
IPCServer.getChannel: immediately rejected (router yielded no id),
forwarded to an established connection, or waiting for the routed
connection to register (the getClient promise). -/
inductive RoutedOutcome where
  | rejectedError (message : String)
  | forwarded (connId chName opName : String) (arg : Value)
  | waiting (connId chName opName : String) (arg : Value)
  deriving DecidableEq, Repr

/-- Embedding of the call closure built by IPCServer.getChannel: asks
the router for a connection id; with no id it returns an eventual result
already rejected with the Error message used by the source, before any
transport or connection state is touched; with an id it delegates
through getDelayedChannel over getClient to the requestPromise of that
connection once it exists. The second component is the updated map from
connection id to the ChannelClient state of that connection. -/
def routedCall (router : ClientRouter) (clients : List (String × ClientState))
    (chName cmd : String) (arg : Value) :
    RoutedOutcome × List (String × ClientState) :=
  match router.routeCall cmd arg with
  | none => (.rejectedError "Client id should be provided", clients)
  | some cid =>
      match lookupAssoc clients cid with
      | some cs => (.forwarded cid chName cmd arg,
          setAssoc clients cid (requestPromise cs chName cmd arg))
      | none => (.waiting cid chName cmd arg, clients)

/-- Embedding of requestEvent restricted to its synchronous effect on
the ChannelClient state: it allocates the next request id and registers
the event handler; nothing is sent until the first subscriber attaches. -/
def requestEventAlloc (cs : ClientState) : Nat × ClientState :=
  (cs.lastRequestId,
   { cs with lastRequestId := cs.lastRequestId + 1,
             handlers := setAssoc cs.handlers cs.lastRequestId HandlerKind.eventH })

/-- Embedding of the listen closure built by IPCServer.getChannel,
mirroring routedCall: no id from the router rejects immediately with the
same Error, otherwise the listen is delegated to the requestEvent of the
routed connection once it exists. -/
def routedListen (router : ClientRouter) (clients : List (String × ClientState))
    (chName ev : String) (arg : Value) :
    RoutedOutcome × List (String × ClientState) :=
  match router.routeEvent ev arg with
  | none => (.rejectedError "Client id should be provided", clients)
  | some cid =>
      match lookupAssoc clients cid with
      | some cs => (.forwarded cid chName ev arg,
          setAssoc clients cid (requestEventAlloc cs).2)
      | none => (.waiting cid chName ev arg, clients)

/-- C8: on the routed channel returned by IPCServer.getChannel, a call
whose router yields no connection id, and a listen whose router yields
no connection id, are both surfaced immediately as the rejected eventual
result carrying the Error message of the source, and every connection
state, in particular every send log, is left untouched: no message is
ever sent on any transport for that operation. -/
theorem routed_no_id_rejects_without_send (router : ClientRouter)
    (clients : List (String × ClientState)) (chName ev cmd : String) (arg : Value)
    (hc : router.routeCall cmd arg = none)
    (he : router.routeEvent ev arg = none) :
    routedCall router clients chName cmd arg
      = (.rejectedError "Client id should be provided", clients) ∧
    routedListen router clients chName ev arg
      = (.rejectedError "Client id should be provided", clients) := by
  constructor
  · unfold routedCall
    rw [hc]
  · unfold routedListen
    rw [he]

/-- Witness for C8 at a router that yields no id. -/
theorem routed_no_id_rejects_without_send_witness :
    (ClientRouter.mk (fun _ _ => none) (fun _ _ => none)).routeCall "cmd" Value.vnull
      = none ∧
    routedCall (ClientRouter.mk (fun _ _ => none) (fun _ _ => none)) [] "ch" "cmd"
        Value.vnull
      = (.rejectedError "Client id should be provided", []) := by
  refine ⟨rfl, ?_⟩
  exact (routed_no_id_rejects_without_send
    (ClientRouter.mk (fun _ _ => none) (fun _ _ => none)) [] "ch" "ev" "cmd"
    Value.vnull rfl rfl).1

/-- Observable state of one event stream created by
ChannelClient.requestEvent: the request id allocated once at creation
(the emitter closes over it for its whole lifetime), the
RequestEventListen message built from it, the number of attached
listeners, whether the listen intent is still parked on whenInitialized
(uninitializedPromise is set), and the log of messages this stream
handed to send. -/
structure EventStreamState where
  id : Nat
  raw : RawRequest
  listenerCount : Nat
  pendingInit : Bool
  sent : List RawRequest
  deriving DecidableEq, Repr

/-- Embedding of ChannelClient.requestEvent: allocates the next request
id, builds the RequestEventListen message, registers the event handler,
and returns the emitter-backed stream with no listeners and no network
activity yet. -/
def requestEvent (cs : ClientState) (chName evName : String) (arg : Value) :
    ClientState × EventStreamState :=
  let raw : RawRequest :=
    { id := cs.lastRequestId, type := .RequestEventListen,
      channelName := chName, name := evName, arg := arg }
  ({ cs with lastRequestId := cs.lastRequestId + 1,
             handlers := setAssoc cs.handlers cs.lastRequestId HandlerKind.eventH },
   { id := cs.lastRequestId, raw := raw, listenerCount := 0,
     pendingInit := false, sent := [] })

/-- Embedding of a listener subscription: when the count rises from
zero, onFirstListenerAdd chains the send of the stored listen request on
whenInitialized; an already-Idle client sends it at once, otherwise the
intent is parked on the pending initialization promise. -/
def subscribeStream (es : EventStreamState) (clientIsIdle : Bool) :
    EventStreamState :=
  if es.listenerCount = 0 then
    if clientIsIdle then
      { es with listenerCount := 1, sent := es.sent ++ [es.raw] }
    else
      { es with listenerCount := 1, pendingInit := true }
  else { es with listenerCount := es.listenerCount + 1 }

/-- Embedding of the initialization continuation of requestEvent: a
parked listen intent is sent when onDidInitialize fires. -/
def streamOnInit (es : EventStreamState) : EventStreamState :=
  if es.pendingInit then
    { es with pendingInit := false, sent := es.sent ++ [es.raw] }
  else es

/-- Embedding of a listener removal: when the count drops to zero,
onLastListenerRemove cancels a still-parked listen intent (nothing was
or will be sent for it), or else sends RequestEventDispose bearing the
stream id. -/
def unsubscribeStream (es : EventStreamState) : EventStreamState :=
  if es.listenerCount = 1 then
    if es.pendingInit then
      { es with listenerCount := 0, pendingInit := false }
    else
      { es with listenerCount := 0,
                sent := es.sent ++ [{ id := es.id, type := .RequestEventDispose }] }
  else { es with listenerCount := es.listenerCount - 1 }

/-- Concrete run for C9: a stream is created on an initialized client
with id 7, subscribed, fully unsubscribed (teardown sends the dispose),
then subscribed again. -/
def resubscribeRun : EventStreamState :=
  subscribeStream
    (unsubscribeStream
      (subscribeStream
        (requestEvent
          { state := State.Idle, lastRequestId := 7, bufferedRequests := [],
            handlers := [], sent := [] } "ch" "ev" Value.vnull).2
        true))
    true

/-- Counterexample to C9 as stated: after full teardown of the stream
(RequestEventDispose sent), subscribing the same stream again does issue
a new RequestEventListen, but it carries the SAME request id 7 that was
used before teardown, not a fresh one, because the emitter closes over
the id allocated once at creation. -/
theorem resubscribe_fresh_id_counterexample :
    resubscribeRun.sent
      = [{ id := 7, type := .RequestEventListen, channelName := "ch",
           name := "ev" },
         { id := 7, type := .RequestEventDispose },
         { id := 7, type := .RequestEventListen, channelName := "ch",
           name := "ev" }] ∧
    ¬ ((resubscribeRun.sent.get ⟨2, by decide⟩).id
        ≠ (resubscribeRun.sent.get ⟨0, by decide⟩).id) := by
  constructor
  · rfl
  · decide

/-- C9 amended: after full teardown (no listeners left, no parked
intent), subscribing the same stream again on an initialized client
re-sends its stored RequestEventListen message, which bears the SAME
request id the stream used before teardown; a request id different from
every previously allocated one is obtained only by a new requestEvent
call, whose allocated id equals the id counter and hence differs from
the id of any stream created earlier. -/
theorem resubscribe_reuses_id (es : EventStreamState) (cs : ClientState)
    (chName evName : String) (arg : Value)
    (h0 : es.listenerCount = 0) (hp : es.pendingInit = false)
    (hraw : es.raw.id = es.id) (hlt : es.id < cs.lastRequestId) :
    subscribeStream es true
      = { es with listenerCount := 1, sent := es.sent ++ [es.raw] } ∧
    es.raw.id = es.id ∧
    (requestEvent cs chName evName arg).2.id = cs.lastRequestId ∧
    (requestEvent cs chName evName arg).2.id ≠ es.id := by
  refine ⟨by simp [subscribeStream, h0], hraw, rfl, ?_⟩
  show cs.lastRequestId ≠ es.id
  omega

/-- Witness for the amended C9 at the torn-down stream of the concrete
run and a client whose id counter has moved past the stream id. -/
theorem resubscribe_reuses_id_witness :
    (unsubscribeStream
      (subscribeStream
        (requestEvent
          { state := State.Idle, lastRequestId := 7, bufferedRequests := [],
            handlers := [], sent := [] } "ch" "ev" Value.vnull).2
        true)).listenerCount = 0 ∧
    (requestEvent
      { state := State.Idle, lastRequestId := 8, bufferedRequests := [],
        handlers := [], sent := [] } "ch" "ev2" Value.vnull).2.id ≠
      (unsubscribeStream
        (subscribeStream
          (requestEvent
            { state := State.Idle, lastRequestId := 7, bufferedRequests := [],
              handlers := [], sent := [] } "ch" "ev" Value.vnull).2
          true)).id := by
  refine ⟨by decide, ?_⟩
  exact (resubscribe_reuses_id
    (unsubscribeStream
      (subscribeStream
        (requestEvent
          { state := State.Idle, lastRequestId := 7, bufferedRequests := [],
            handlers := [], sent := [] } "ch" "ev" Value.vnull).2
        true))
    { state := State.Idle, lastRequestId := 8, bufferedRequests := [],
      handlers := [], sent := [] } "ch" "ev2" Value.vnull
    (by decide) (by decide) (by decide) (by decide)).2.2.2

/-- Observable state of one IPCServer over channel implementations of
type α: the shared channel registry, and, per established connection,
the channels that were registered on the ChannelServer of that
connection when it was created. -/
structure IPCServerState (α : Type) where
  channels : List (String × α)
  connections : List (String × List (String × α))

/-- Embedding of IPCServer.registerChannel: writes the shared registry
only. -/
def ipcRegisterChannel {α : Type} (s : IPCServerState α) (chName : String)
    (ch : α) : IPCServerState α :=
  { s with channels := setAssoc s.channels chName ch }

/-- Embedding of the connection setup in the IPCServer constructor: on
the first message of a new connection, a fresh ChannelServer is created
and every channel currently in the registry is registered on it, then
the connection is recorded under the announced id. -/
def ipcConnect {α : Type} (s : IPCServerState α) (connId : String) :
    IPCServerState α :=
  { s with connections := s.connections ++ [(connId, s.channels)] }

lemma lookupAssoc_setAssoc {α β : Type} [DecidableEq α]
    (l : List (α × β)) (k : α) (v : β) :
    lookupAssoc (setAssoc l k v) k = some v := by
  induction l with
  | nil => simp [setAssoc, lookupAssoc]
  | cons p rest ih =>
      obtain ⟨a, b⟩ := p
      by_cases h : a = k
      · simp [setAssoc, lookupAssoc, h]
      · simp [setAssoc, lookupAssoc, h, ih]

/-- C10: registering a channel on an IPCServer mutates only its own
channel registry; the recorded per-connection ChannelServer channels of
every already-established connection are left untouched, each
connection snapshots exactly the registry contents at the moment it
registered, and a channel name absent from an existing connection at
registration time stays absent from it afterwards. -/
theorem ipc_registerChannel_frame {α : Type} (s : IPCServerState α)
    (chName : String) (ch : α) (connId cid2 : String)
    (snap : List (String × α))
    (hconn : lookupAssoc s.connections connId = some snap)
    (habsent : lookupAssoc snap chName = none) :
    (ipcRegisterChannel s chName ch).connections = s.connections ∧
    lookupAssoc (ipcRegisterChannel s chName ch).channels chName = some ch ∧
    lookupAssoc (ipcRegisterChannel s chName ch).connections connId = some snap ∧
    lookupAssoc snap chName = none ∧
    (ipcConnect s cid2).connections = s.connections ++ [(cid2, s.channels)] ∧
    (ipcConnect (ipcRegisterChannel s chName ch) cid2).connections
      = s.connections ++ [(cid2, setAssoc s.channels chName ch)] := by
  exact ⟨rfl, lookupAssoc_setAssoc s.channels chName ch, hconn, habsent, rfl, rfl⟩

/-- Witness for C10: a channel registered after connection c1 was
established is recorded in the registry but not in the snapshot of c1,
while a connection made afterwards does see it. -/
theorem ipc_registerChannel_frame_witness :
    lookupAssoc (([("c1", [("old", 1)])] :
        List (String × List (String × Nat)))) "c1" = some [("old", 1)] ∧
    lookupAssoc ([("old", (1 : Nat))]) "fresh" = none ∧
    (ipcRegisterChannel
        (⟨[("old", 1)], [("c1", [("old", 1)])]⟩ : IPCServerState Nat)
        "fresh" 2).connections = [("c1", [("old", 1)])] ∧
    lookupAssoc
      (ipcRegisterChannel
        (⟨[("old", 1)], [("c1", [("old", 1)])]⟩ : IPCServerState Nat)
        "fresh" 2).channels "fresh" = some 2 := by
  refine ⟨by decide, by decide, ?_, ?_⟩
  · exact (ipc_registerChannel_frame
      (⟨[("old", 1)], [("c1", [("old", 1)])]⟩ : IPCServerState Nat)
      "fresh" 2 "c1" "c2" [("old", 1)] (by decide) (by decide)).1
  · exact (ipc_registerChannel_frame
      (⟨[("old", 1)], [("c1", [("old", 1)])]⟩ : IPCServerState Nat)
      "fresh" 2 "c1" "c2" [("old", 1)] (by decide) (by decide)).2.1

end IpcSpec
